import Mathlib

/-!
Shallow embedding of `src/model_provider/sagemaker/tts/tts.py`
(class `SageMakerText2SpeechModel`) and proofs about it.

Modelling conventions.

* Python dicts with string keys and string values are association lists
  (`Dict`) preserving insertion order, as Python dicts do.
* Python exceptions are `Exc` records (kind, message); `str(ex)` is
  `Exc.msg`.  Messages are rendered without quotation marks around names.
* The module binds only the names listed in `moduleGlobals`.  The class body
  uses the free names `logger`, `boto3` and `json`, which the module never
  imports or defines, and the body of `_tts_invoke_streaming` additionally
  uses the free names `model`, `credentials` and `content_text`, none of
  which is a parameter of that method.  Both entry points are therefore
  modelled relative to an explicit environment of bound module-level names,
  exactly as Python resolves a free name at use time: an unbound name raises
  `NameError` at the statement that evaluates it.
* `_tts_invoke_streaming` evaluates the free name `model` in its very first
  statement, inside the `try` block (tts.py:191); under this module it
  therefore raises at once, the `except Exception` clause rewraps the error
  as `InvokeBadRequestError`, and no endpoint call, text split, audio fetch
  or chunk emission is ever reached.  The remainder of the body, reachable
  only under environments that do bind `model`, is an arbitrary outcome
  parameter (`rest`); every theorem below holds for all values of that
  parameter, which shows the outcome under this module does not depend on it.
* The per-segment payload list of the long path (tts.py:196-198) is embedded
  with explicit object references (`payloadRefs`, `mutateStore`,
  `dispatchedPayloads`): `[payload] * len_sent` repeats one reference, and
  the mutation loop writes through the references.
* The observables of one generator run are a `RunResult`: the chunks handed
  to the caller, the trace of audio-URL fetches, the trace of endpoint
  invocations, how often the sentence splitter ran, the worker-pool size if
  a pool was created, and the terminal exception, if any.
-/

/-- Audio byte strings are lists of naturals (byte values are opaque here). -/
abbrev Bytes := List Nat

/-- A Python dict with string keys and values: an insertion-ordered
association list. -/
abbrev Dict := List (String × String)

/-- Python `d.get(key)`: the value of the first matching key, if present
(keys are unique in a Python dict, so first match is the match). -/
def dictGet : Dict → String → Option String
  | [], _ => none
  | (k, v) :: rest, key => if k == key then some v else dictGet rest key

/-- Python `d.get(key, dflt)`. -/
def dictGetD (d : Dict) (key dflt : String) : String :=
  (dictGet d key).getD dflt

/-- Python `d[key] = v`: replace in place when the key exists, else append
(insertion order preserved). -/
def dictSet (d : Dict) (key v : String) : Dict :=
  if (dictGet d key).isSome then
    d.map (fun p => if p.1 == key then (p.1, v) else p)
  else
    d ++ [(key, v)]

/-- A Python exception: its class name and its message (`str(ex)`). -/
structure Exc where
  kind : String
  msg : String
deriving DecidableEq, Repr

/-- The `TTSModelType` enum of the source. -/
inductive TTSModelType where
  | PresetVoice
  | CloneVoice
  | CloneVoice_CrossLingual
  | InstructVoice
deriving DecidableEq, Repr

/-- The `.value` of each enum member, exactly as in the source. -/
def TTSModelType.value : TTSModelType → String
  | .PresetVoice => "PresetVoice"
  | .CloneVoice => "CloneVoice"
  | .CloneVoice_CrossLingual => "CloneVoice_CrossLingual"
  | .InstructVoice => "InstructVoice"

/-- Python truthiness of an optional string: `None` and the empty string are
falsy, every other string is truthy. -/
def truthy : Option String → Bool
  | none => false
  | some s => !(s == "")

/-- `SageMakerText2SpeechModel._build_tts_payload`, line for line: four
guarded returns, then `raise RuntimeError(f"Invalid params for {model_type}")`.
The optional arguments model the values produced by `credentials.get(...)`
in the caller, which may be absent. -/
def _build_tts_payload (content_text model_type : String)
    (model_role prompt_text prompt_audio lang_tag instruct_text : Option String) :
    Except Exc Dict :=
  if model_type == TTSModelType.PresetVoice.value && truthy model_role then
    .ok [("tts_text", content_text), ("role", model_role.getD "")]
  else if model_type == TTSModelType.CloneVoice.value && truthy prompt_text
      && truthy prompt_audio then
    .ok [("tts_text", content_text), ("prompt_text", prompt_text.getD ""),
         ("prompt_audio", prompt_audio.getD "")]
  else if model_type == TTSModelType.CloneVoice_CrossLingual.value
      && truthy prompt_audio && truthy lang_tag then
    .ok [("tts_text", content_text), ("prompt_audio", prompt_audio.getD ""),
         ("lang_tag", lang_tag.getD "")]
  else if model_type == TTSModelType.InstructVoice.value && truthy instruct_text
      && truthy model_role then
    .ok [("tts_text", content_text), ("role", model_role.getD ""),
         ("instruct_text", instruct_text.getD "")]
  else
    .error ⟨"RuntimeError", "Invalid params for " ++ model_type⟩

/-- Outcome of `validate_credentials`: possible exception and the list of
performed side effects. -/
structure ValidateResult where
  err : Option Exc
  effects : List String
deriving DecidableEq, Repr

/-- `SageMakerText2SpeechModel.validate_credentials`: the body is `pass`,
so it returns `None`, raises nothing and performs no side effect. -/
def validate_credentials (model : String) (credentials : Dict) : ValidateResult :=
  ⟨none, []⟩

/-- `_get_model_word_limit`: returns `600`, ignoring both arguments. -/
def _get_model_word_limit (model : String) (credentials : Dict) : Nat := 600

/-- `_get_model_audio_type`: returns `"mp3"`. -/
def _get_model_audio_type (model : String) (credentials : Dict) : String := "mp3"

/-- `_get_model_workers_limit`: returns `5`. -/
def _get_model_workers_limit (model : String) (credentials : Dict) : Nat := 5

/-- Python `payloads = [payload] * len_sent`: a list of `len_sent` copies of
one and the same object reference (the list repeats the reference, it does
not copy the dict).  References are addresses into a store; the template
dict lives at address `r`. -/
def payloadRefs (len_sent : Nat) (r : Nat) : List Nat :=
  List.replicate len_sent r

/-- Write a dict into the store at one address. -/
def storeWrite (store : Nat → Dict) (r : Nat) (d : Dict) : Nat → Dict :=
  fun j => if j = r then d else store j

/-- The mutation loop
`for idx in range(len_sent): payloads[idx]["tts_text"] = sentences[idx]`,
acting on the store through the references of the list. -/
def mutateStore : (Nat → Dict) → List (Nat × String) → (Nat → Dict)
  | store, [] => store
  | store, (r, s) :: rest =>
      mutateStore (storeWrite store r (dictSet (store r) "tts_text" s)) rest

/-- The dict values that the per-segment endpoint calls of tts.py:200-205
would carry, per tts.py:196-198: the template `payload` is the single
allocated object (address 0), the list of references is built by
`[payload] * len_sent`, the mutation loop runs, and each submission then
reads the dict its reference points to. -/
def dispatchedPayloads (payload : Dict) (sentences : List String) : List Dict :=
  let refs := payloadRefs sentences.length 0
  let store := mutateStore (fun _ => payload) (refs.zip sentences)
  refs.map store

/-- Observable outcome of one `_tts_invoke_streaming` generator run: the
chunks yielded before termination, the trace of audio-URL fetches, the
payload values passed to the endpoint (in submission order), how often the
sentence splitter ran, the worker-pool size if a pool was created, and the
terminal exception, if any.  Chunks listed in `chunks` were already handed
to the caller even when `err` is set. -/
structure RunResult where
  chunks : List Bytes
  fetches : List (Option String)
  calls : List Dict
  splits : Nat
  workers : Option Nat
  err : Option Exc
deriving DecidableEq, Repr

/-- `raise InvokeBadRequestError(str(ex))`: the wrapper exception keeps the
message of the original exception and nothing else. -/
def wrapExc (e : Exc) : Exc := ⟨"InvokeBadRequestError", e.msg⟩

/-- The module-level names this source file actually binds: its imports and
its two top-level definitions.  `logger`, `boto3` and `json` are used in the
class body but never imported or defined, and `model`, `credentials` and
`content_text` are neither bound at module level nor parameters of
`_tts_invoke_streaming`. -/
def moduleGlobals : List String :=
  ["concurrent", "IO", "Optional", "Any", "Enum",
   "I18nObject", "AIModelEntity", "FetchFrom", "ModelType",
   "InvokeAuthorizationError", "InvokeBadRequestError", "InvokeConnectionError",
   "InvokeError", "InvokeRateLimitError", "InvokeServerUnavailableError",
   "CredentialsValidateFailedError", "TTSModel", "requests",
   "TTSModelType", "SageMakerText2SpeechModel"]

/-- `_tts_invoke_streaming(self, payload, sagemaker_endpoint)` relative to
an environment of bound module-level names.  Its first statement, inside
`try`, is `word_limit = self._get_model_word_limit(model, credentials)`
(tts.py:191); Python evaluates the free name `model` there, so when `model`
is unbound the statement raises `NameError` with message
`name model is not defined`, the `except Exception as ex` clause
(tts.py:220) catches it, and `InvokeBadRequestError(str(ex))` is raised
instead: zero endpoint calls, zero audio fetches, zero splitter runs, no
worker pool and no chunk.  When the environment does bind `model`,
execution continues into the remainder of the body; its outcome depends on
further bindings and on network effects and is passed in as the parameter
`rest`, which no theorem of this file constrains: under this module, where
`model` is unbound, the outcome is the same for every `rest`. -/
def _tts_invoke_streaming (globals : List String) (rest : RunResult)
    (payload : Dict) (sagemaker_endpoint : String) : RunResult :=
  if "model" ∈ globals then rest
  else
    { chunks := [], fetches := [], calls := [], splits := 0, workers := none,
      err := some (wrapExc ⟨"NameError", "name model is not defined"⟩) }

/-- Outcome of one `_invoke` call: terminal exception if any, plus how many
endpoint invocations and audio fetches were performed before returning. -/
structure InvokeOutcome where
  err : Option Exc
  endpointCalls : Nat
  audioFetches : Nat
deriving DecidableEq, Repr

/-- The positional parameters of `def _tts_invoke_streaming(self, payload, sagemaker_endpoint)`. -/
def tts_invoke_streaming_positional_params : List String :=
  ["self", "payload", "sagemaker_endpoint"]

/-- The positional arguments of the call
`self._tts_invoke_streaming(model, credentials, content_text, voice)`
on the last line of `_invoke` (the bound `self` included). -/
def invoke_streaming_call_args : List String :=
  ["self", "model", "credentials", "content_text", "voice"]

/-- `SageMakerText2SpeechModel._invoke`, statement by statement, relative to
an environment of bound module-level names.  Its first statement is
`logger.warning(...)`: if `logger` is unbound this raises `NameError` at
once.  On a fresh instance `self.sagemaker_client` is `None`, so the next
statements construct clients through `boto3.client(...)`: unbound `boto3` is
again a `NameError`.  Then the payload is built (which may raise), and the
final line calls `_tts_invoke_streaming` with four positional arguments
against a two-parameter signature, a `TypeError` raised while binding the
arguments, before the generator body could run.  On no path does `_invoke`
reach an endpoint invocation or an audio fetch. -/
def _invoke (globals : List String) (model tenant_id : String)
    (credentials : Dict) (content_text voice user : String) : InvokeOutcome :=
  if "logger" ∈ globals then
    if "boto3" ∈ globals then
      match _build_tts_payload content_text
          (dictGetD credentials "model_type" "PresetVoice")
          (dictGet credentials "model_role")
          (dictGet credentials "prompt_text")
          (dictGet credentials "prompt_audio")
          (dictGet credentials "lang_tag")
          (dictGet credentials "instruct_text") with
      | .error e => { err := some e, endpointCalls := 0, audioFetches := 0 }
      | .ok _payload =>
          { err := some ⟨"TypeError",
              "_tts_invoke_streaming takes 3 positional arguments but 5 were given"⟩,
            endpointCalls := 0, audioFetches := 0 }
    else
      { err := some ⟨"NameError", "name boto3 is not defined"⟩,
        endpointCalls := 0, audioFetches := 0 }
  else
    { err := some ⟨"NameError", "name logger is not defined"⟩,
      endpointCalls := 0, audioFetches := 0 }

/-- Under the environment this module actually provides (`model` unbound),
every run of `_tts_invoke_streaming` performs no endpoint call, no fetch and
no split, creates no pool, emits no chunk, and terminates with the wrapped
`NameError` - whatever the unreachable remainder of the body would have
done. -/
theorem tts_invoke_streaming_run (rest : RunResult) (payload : Dict)
    (sagemaker_endpoint : String) :
    _tts_invoke_streaming moduleGlobals rest payload sagemaker_endpoint =
      { chunks := [], fetches := [], calls := [], splits := 0, workers := none,
        err := some ⟨"InvokeBadRequestError", "name model is not defined"⟩ } := by
  unfold _tts_invoke_streaming
  rw [if_neg (by decide)]
  rfl

/-- Claim C1 (refuted by the code; the code, not the claim, is wrong): the
claim says each segment is dispatched with its own independent payload copy
carrying exactly that segment text.  In the source, `[payload] * len_sent`
repeats one reference, so both segments of this run are dispatched with the
one shared dict, and both carry the text of the LAST segment: with template
`{tts_text: orig, role: r1}` and segments `["a", "b"]`, both dispatched
values equal `{tts_text: "b", role: "r1"}`, and the reference list is
`[0, 0]` - the same object twice. -/
theorem c1_payload_aliasing_eval :
    dispatchedPayloads [("tts_text", "orig"), ("role", "r1")] ["a", "b"] =
      [[("tts_text", "b"), ("role", "r1")], [("tts_text", "b"), ("role", "r1")]]
    ∧ payloadRefs 2 0 = [0, 0] := by
  exact ⟨by decide, by decide⟩

/-- Claim C2 (the code violates it; the claim matches the spec intent): the
claimed in-order emission of per-segment audio never occurs, because under
this module `_tts_invoke_streaming` raises the wrapped `NameError` at its
first statement: the splitter never produces a segment, no payload is ever
dispatched to the endpoint, no chunk is ever emitted, for every payload,
every endpoint name and every possible outcome of the unreachable remainder
of the body. -/
theorem c2_long_text_never_dispatches (rest : RunResult) (payload : Dict)
    (sagemaker_endpoint : String) :
    "model" ∉ moduleGlobals
    ∧ (_tts_invoke_streaming moduleGlobals rest payload
        sagemaker_endpoint).splits = 0
    ∧ (_tts_invoke_streaming moduleGlobals rest payload
        sagemaker_endpoint).calls = []
    ∧ (_tts_invoke_streaming moduleGlobals rest payload
        sagemaker_endpoint).chunks = []
    ∧ (_tts_invoke_streaming moduleGlobals rest payload
        sagemaker_endpoint).err =
        some ⟨"InvokeBadRequestError", "name model is not defined"⟩ := by
  refine ⟨by decide, ?_, ?_, ?_, ?_⟩ <;> rw [tts_invoke_streaming_run]

/-- Claim C3: for every supported voice mode with all of its required
companion fields present, `_build_tts_payload` returns exactly the
documented field set for that mode (the text under key `tts_text` plus the
required fields of the mode), with no extra and no missing keys. -/
theorem c3_payload_builder_field_sets (content_text : String)
    (model_role prompt_text prompt_audio lang_tag instruct_text : Option String) :
    (truthy model_role = true →
      _build_tts_payload content_text TTSModelType.PresetVoice.value
          model_role prompt_text prompt_audio lang_tag instruct_text =
        .ok [("tts_text", content_text), ("role", model_role.getD "")])
    ∧ (truthy prompt_text = true → truthy prompt_audio = true →
      _build_tts_payload content_text TTSModelType.CloneVoice.value
          model_role prompt_text prompt_audio lang_tag instruct_text =
        .ok [("tts_text", content_text), ("prompt_text", prompt_text.getD ""),
             ("prompt_audio", prompt_audio.getD "")])
    ∧ (truthy prompt_audio = true → truthy lang_tag = true →
      _build_tts_payload content_text TTSModelType.CloneVoice_CrossLingual.value
          model_role prompt_text prompt_audio lang_tag instruct_text =
        .ok [("tts_text", content_text), ("prompt_audio", prompt_audio.getD ""),
             ("lang_tag", lang_tag.getD "")])
    ∧ (truthy instruct_text = true → truthy model_role = true →
      _build_tts_payload content_text TTSModelType.InstructVoice.value
          model_role prompt_text prompt_audio lang_tag instruct_text =
        .ok [("tts_text", content_text), ("role", model_role.getD ""),
             ("instruct_text", instruct_text.getD "")]) := by
  refine ⟨?_, ?_, ?_, ?_⟩ <;> intros <;>
    simp [_build_tts_payload, TTSModelType.value, *]

/-- Claim C3 witness: PresetVoice with a role present yields exactly
`{tts_text, role}`. -/
theorem c3_payload_builder_field_sets_witness :
    truthy (some "r1") = true ∧
    _build_tts_payload "hello" TTSModelType.PresetVoice.value
        (some "r1") none none none none =
      .ok [("tts_text", "hello"), ("role", "r1")] :=
  ⟨by decide,
   (c3_payload_builder_field_sets "hello" (some "r1") none none none none).1
     (by decide)⟩

/-- Claim C4: for every mode/field combination that satisfies none of the
four branch guards (unknown mode, or a supported mode with a required field
absent or empty), `_build_tts_payload` raises
`RuntimeError("Invalid params for " + model_type)` - an error whose message
names the offending mode - and returns no payload at all. -/
theorem c4_payload_builder_invalid (content_text model_type : String)
    (model_role prompt_text prompt_audio lang_tag instruct_text : Option String)
    (h1 : (model_type == TTSModelType.PresetVoice.value
        && truthy model_role) = false)
    (h2 : (model_type == TTSModelType.CloneVoice.value
        && truthy prompt_text && truthy prompt_audio) = false)
    (h3 : (model_type == TTSModelType.CloneVoice_CrossLingual.value
        && truthy prompt_audio && truthy lang_tag) = false)
    (h4 : (model_type == TTSModelType.InstructVoice.value
        && truthy instruct_text && truthy model_role) = false) :
    _build_tts_payload content_text model_type
        model_role prompt_text prompt_audio lang_tag instruct_text =
      .error ⟨"RuntimeError", "Invalid params for " ++ model_type⟩ := by
  simp [_build_tts_payload, h1, h2, h3, h4]

/-- Claim C4 witness: an unsupported mode string with no companion fields
fails with the error naming that mode. -/
theorem c4_payload_builder_invalid_witness :
    _build_tts_payload "hi" "FooMode" none none none none none =
      .error ⟨"RuntimeError", "Invalid params for FooMode"⟩ := by
  have h := c4_payload_builder_invalid "hi" "FooMode" none none none none none
    (by decide) (by decide) (by decide) (by decide)
  simpa using h

/-- Claim C5 (the code makes its subject unreachable; the claim matches the
spec intent): the steps the claim names - endpoint invocation, reading a
response field, audio retrieval - never execute, because every run raises
`NameError` at its first statement; so no input can make those steps raise.
The top-level `except` clause is real and operative: it catches the one
exception that does occur and re-raises `InvokeBadRequestError` with the
original message preserved; and nothing is ever invoked, fetched or
retried. -/
theorem c5_wrapper_sees_only_nameerror (rest : RunResult) (payload : Dict)
    (sagemaker_endpoint : String) :
    (_tts_invoke_streaming moduleGlobals rest payload sagemaker_endpoint).err =
      some (wrapExc ⟨"NameError", "name model is not defined"⟩)
    ∧ (_tts_invoke_streaming moduleGlobals rest payload
        sagemaker_endpoint).err.map Exc.kind = some "InvokeBadRequestError"
    ∧ (_tts_invoke_streaming moduleGlobals rest payload
        sagemaker_endpoint).err.map Exc.msg = some "name model is not defined"
    ∧ (_tts_invoke_streaming moduleGlobals rest payload
        sagemaker_endpoint).calls = []
    ∧ (_tts_invoke_streaming moduleGlobals rest payload
        sagemaker_endpoint).fetches = [] := by
  refine ⟨?_, ?_, ?_, ?_, ?_⟩ <;> rw [tts_invoke_streaming_run] <;> rfl

/-- Claim C6 (the code violates its premise; the claim matches the spec
intent): no execution has an endpoint call for any segment `k`, failing or
not, because no segment is ever dispatched: every run raises the wrapped
`NameError` before splitting or submitting anything, so zero chunks precede
the terminal bad-request error and no worker pool ever exists. -/
theorem c6_no_segment_ever_dispatched (rest : RunResult) (payload : Dict)
    (sagemaker_endpoint : String) :
    (_tts_invoke_streaming moduleGlobals rest payload
        sagemaker_endpoint).calls = []
    ∧ (_tts_invoke_streaming moduleGlobals rest payload
        sagemaker_endpoint).workers = none
    ∧ (_tts_invoke_streaming moduleGlobals rest payload
        sagemaker_endpoint).chunks = []
    ∧ (_tts_invoke_streaming moduleGlobals rest payload
        sagemaker_endpoint).err.map Exc.kind = some "InvokeBadRequestError" := by
  refine ⟨?_, ?_, ?_, ?_⟩ <;> rw [tts_invoke_streaming_run] <;> rfl

/-- Claim C7 (holds, vacuously): every chunk emitted by
`_tts_invoke_streaming` is exactly 1024 bytes except possibly the final
chunk of the final segment - vacuously, because the chunk stream of every
run is empty: the generator raises the wrapped `NameError` at its first
statement and the slicing loops at tts.py:211-212 and 218-219 are never
reached.  The second conjunct states the 1024-byte property directly over
the emitted chunks (here even without the final-chunk exception). -/
theorem c7_chunk_sizes_vacuous (rest : RunResult) (payload : Dict)
    (sagemaker_endpoint : String) :
    (_tts_invoke_streaming moduleGlobals rest payload
        sagemaker_endpoint).chunks = []
    ∧ ((_tts_invoke_streaming moduleGlobals rest payload
        sagemaker_endpoint).chunks.all (fun c => c.length == 1024)) = true
    ∧ (_tts_invoke_streaming moduleGlobals rest payload
        sagemaker_endpoint).err =
        some ⟨"InvokeBadRequestError", "name model is not defined"⟩ := by
  refine ⟨?_, ?_, ?_⟩ <;> rw [tts_invoke_streaming_run] <;> rfl

/-- Claim C8 (the code violates it; the claim matches the spec intent): for
text no longer than the word limit the claim demands exactly one endpoint
call, one audio fetch and chunked emission; the code performs zero endpoint
calls and zero fetches on every input - in particular on a 12-character
text - emitting nothing and raising the wrapped `NameError` instead. -/
theorem c8_zero_endpoint_calls (rest : RunResult) (payload : Dict)
    (sagemaker_endpoint : String) :
    "model" ∉ moduleGlobals
    ∧ (_tts_invoke_streaming moduleGlobals rest payload
        sagemaker_endpoint).calls = []
    ∧ (_tts_invoke_streaming moduleGlobals rest payload
        sagemaker_endpoint).fetches = []
    ∧ (_tts_invoke_streaming moduleGlobals rest payload
        sagemaker_endpoint).chunks = []
    ∧ (_tts_invoke_streaming moduleGlobals rest payload
        sagemaker_endpoint).err =
        some ⟨"InvokeBadRequestError", "name model is not defined"⟩ := by
  refine ⟨by decide, ?_, ?_, ?_, ?_⟩ <;> rw [tts_invoke_streaming_run]

/-- Claim C9: for every combination of arguments, the `_invoke` entry point
fails before any endpoint invocation or audio fetch: its first statement
needs the unbound name `logger` (a `NameError`), the client-construction
branch would need the unimported `boto3`, and the final line forwards four
positional arguments to `_tts_invoke_streaming`, whose signature takes only
a payload and an endpoint name.  No network call is ever issued through
`_invoke`. -/
theorem c9_invoke_always_fails (model tenant_id : String) (credentials : Dict)
    (content_text voice user : String) :
    _invoke moduleGlobals model tenant_id credentials content_text voice user =
      { err := some ⟨"NameError", "name logger is not defined"⟩,
        endpointCalls := 0, audioFetches := 0 }
    ∧ "logger" ∉ moduleGlobals
    ∧ "boto3" ∉ moduleGlobals
    ∧ invoke_streaming_call_args.length ≠
        tts_invoke_streaming_positional_params.length := by
  refine ⟨?_, by decide, by decide, by decide⟩
  unfold _invoke
  rw [if_neg (by decide)]

/-- Claim C10: `validate_credentials` returns normally for every model name
and every credentials bundle, performing no check and no side effect. -/
theorem c10_validate_credentials_noop (model : String) (credentials : Dict) :
    validate_credentials model credentials = ⟨none, []⟩ := rfl
